import Mathlib

/-!
Verification of the knowledge-graph service in
backend/app/services/graph_rag.py (class GraphRAGService).

Collections of the ArangoDB store are modelled as lists of records.  Each
AQL data-modification query is modelled as a pure function on those lists;
inside one query every read sees the collection snapshot taken when the
query started (ArangoDB semantics: modifications are not visible to reads
of the same query), while consecutive queries see each other's effects.
Float scores are modelled as rationals; runtime-generated fields such as
timestamps and fresh document keys are carried as opaque strings.
-/

/-! ### Relationships collection and the merge engine (_merge_concepts) -/

/-- A document of the Relationships edge collection: the endpoint and type
fields together with the metadata written by the merge engine
(created_at is copied from the re-homed edge, merged_from records the
source of a merge re-homing). -/
structure REdge where
  efrom : String
  eto : String
  etype : String
  createdAt : String := ""
  mergedFrom : Option String := none
deriving DecidableEq

/-- The (from, to, type) view of an edge: the identity used by every
duplicate check in the service. -/
def REdge.triple (e : REdge) : String × String × String :=
  (e.efrom, e.eto, e.etype)

/-- Duplicate check of aql_move_out in _merge_concepts: some edge
(target, e.to, e.type) already exists in the snapshot. -/
def equivOutExists (edges : List REdge) (targetId : String) (e : REdge) : Bool :=
  edges.any fun te => te.efrom == targetId && te.eto == e.eto && te.etype == e.etype

/-- aql_move_out of _merge_concepts: for every edge leaving the source,
insert a copy re-homed to the target unless an equivalent edge already
exists; both the iteration and the duplicate check read the snapshot. -/
def moveOutEdges (edges : List REdge) (sourceId targetId : String) : List REdge :=
  edges ++
    ((edges.filter fun e => e.efrom == sourceId && !equivOutExists edges targetId e).map
      fun e =>
        { efrom := targetId, eto := e.eto, etype := e.etype,
          createdAt := e.createdAt, mergedFrom := some sourceId })

/-- Duplicate check of aql_move_in in _merge_concepts. -/
def equivInExists (edges : List REdge) (targetId : String) (e : REdge) : Bool :=
  edges.any fun te => te.eto == targetId && te.efrom == e.efrom && te.etype == e.etype

/-- aql_move_in of _merge_concepts: re-home every edge entering the source
to the target, with the same duplicate guard. -/
def moveInEdges (edges : List REdge) (sourceId targetId : String) : List REdge :=
  edges ++
    ((edges.filter fun e => e.eto == sourceId && !equivInExists edges targetId e).map
      fun e =>
        { efrom := e.efrom, eto := targetId, etype := e.etype,
          createdAt := e.createdAt, mergedFrom := some sourceId })

/-- Step 3 of _merge_concepts: REMOVE every Relationships edge whose
_from or _to equals the source id. -/
def removeSourceEdges (edges : List REdge) (sourceId : String) : List REdge :=
  edges.filter fun e => !(e.efrom == sourceId) && !(e.eto == sourceId)

/-- Effect of _merge_concepts(source_id, target_id) on the Relationships
collection: the three AQL statements executed in program order. -/
def mergeEdges (edges : List REdge) (sourceId targetId : String) : List REdge :=
  removeSourceEdges (moveInEdges (moveOutEdges edges sourceId targetId) sourceId targetId)
    sourceId

/-- A ConceptSessionLinks edge document. -/
structure LinkEdge where
  lfrom : String
  lto : String
deriving DecidableEq

/-- The graph-store state touched by _merge_concepts: the Concepts node
collection (as document ids), the Relationships edges and the
ConceptSessionLinks edges. -/
structure GraphState where
  concepts : List String
  relationships : List REdge
  conceptSessionLinks : List LinkEdge
deriving DecidableEq

/-- Full effect of _merge_concepts: move edges, remove the source's
remaining edges and session links, then delete the source node itself
(Concepts.delete with ignore_missing=True). -/
def mergeConcepts (st : GraphState) (sourceId targetId : String) : GraphState :=
  { concepts := st.concepts.filter fun n => !(n == sourceId),
    relationships := mergeEdges st.relationships sourceId targetId,
    conceptSessionLinks :=
      st.conceptSessionLinks.filter fun e => !(e.lfrom == sourceId) && !(e.lto == sourceId) }

/-- No two edges share the same (from, to, type) triple. -/
def NoDupTriples (edges : List REdge) : Prop :=
  edges.Pairwise fun a b => a.triple ≠ b.triple

/-- Every edge surviving mergeEdges avoids the source id on both ends. -/
lemma mergeEdges_not_source {edges : List REdge} {s t : String} {e : REdge}
    (he : e ∈ mergeEdges edges s t) : e.efrom ≠ s ∧ e.eto ≠ s := by
  unfold mergeEdges removeSourceEdges at he
  have h := (List.mem_filter.mp he).2
  simp only [Bool.and_eq_true, Bool.not_eq_true', beq_eq_false_iff_ne] at h
  exact h

/-- A list with pairwise-distinct triples stays duplicate-free after
appending re-homed copies of a filtered sublist, provided re-homing is
injective on triples of the filtered edges and no original edge shares a
triple with a re-homed copy. -/
lemma nodup_append_rehomed (E : List REdge) (P : REdge → Bool) (f : REdge → REdge)
    (hE : NoDupTriples E)
    (hfix : ∀ a b : REdge, a ∈ E.filter P → b ∈ E.filter P →
      a.triple ≠ b.triple → (f a).triple ≠ (f b).triple)
    (hblock : ∀ a ∈ E, ∀ e ∈ E.filter P, a.triple ≠ (f e).triple) :
    NoDupTriples (E ++ (E.filter P).map f) := by
  unfold NoDupTriples at *
  rw [List.pairwise_append]
  refine ⟨hE, ?_, ?_⟩
  · rw [List.pairwise_map]
    exact (hE.filter P).imp_of_mem fun ha hb hab => hfix _ _ ha hb hab
  · intro a ha b hb
    obtain ⟨e, he, rfl⟩ := List.mem_map.mp hb
    exact hblock a ha e he

/-- moveOutEdges preserves freedom from duplicate triples. -/
lemma nodup_moveOut {E : List REdge} {s t : String} (hE : NoDupTriples E) :
    NoDupTriples (moveOutEdges E s t) := by
  unfold moveOutEdges
  refine nodup_append_rehomed E _ _ hE ?_ ?_
  · intro a b ha hb hab
    have hPa := (List.mem_filter.mp ha).2
    have hPb := (List.mem_filter.mp hb).2
    simp only [Bool.and_eq_true, beq_iff_eq] at hPa hPb
    intro hcontra
    apply hab
    simp only [REdge.triple, Prod.mk.injEq] at hcontra ⊢
    exact ⟨hPa.1.trans hPb.1.symm, hcontra.2⟩
  · intro a ha e he
    have hPe := (List.mem_filter.mp he).2
    simp only [Bool.and_eq_true, beq_iff_eq, Bool.not_eq_true'] at hPe
    intro hcontra
    simp only [REdge.triple, Prod.mk.injEq] at hcontra
    have : equivOutExists E t e = true := by
      unfold equivOutExists
      rw [List.any_eq_true]
      exact ⟨a, ha, by simp [hcontra.1, hcontra.2.1, hcontra.2.2]⟩
    rw [hPe.2] at this
    exact Bool.false_ne_true this

/-- moveInEdges preserves freedom from duplicate triples. -/
lemma nodup_moveIn {E : List REdge} {s t : String} (hE : NoDupTriples E) :
    NoDupTriples (moveInEdges E s t) := by
  unfold moveInEdges
  refine nodup_append_rehomed E _ _ hE ?_ ?_
  · intro a b ha hb hab
    have hPa := (List.mem_filter.mp ha).2
    have hPb := (List.mem_filter.mp hb).2
    simp only [Bool.and_eq_true, beq_iff_eq] at hPa hPb
    intro hcontra
    apply hab
    simp only [REdge.triple, Prod.mk.injEq] at hcontra ⊢
    exact ⟨hcontra.1, hPa.1.trans hPb.1.symm, hcontra.2.2⟩
  · intro a ha e he
    have hPe := (List.mem_filter.mp he).2
    simp only [Bool.and_eq_true, beq_iff_eq, Bool.not_eq_true'] at hPe
    intro hcontra
    simp only [REdge.triple, Prod.mk.injEq] at hcontra
    have : equivInExists E t e = true := by
      unfold equivInExists
      rw [List.any_eq_true]
      exact ⟨a, ha, by simp [hcontra.1, hcontra.2.1, hcontra.2.2]⟩
    rw [hPe.2] at this
    exact Bool.false_ne_true this

/-- After a merge no edge touches the source, hence a second identical
merge finds nothing to move or remove. -/
lemma mergeEdges_fixpoint (E : List REdge) (s t : String) :
    mergeEdges (mergeEdges E s t) s t = mergeEdges E s t := by
  have hno : ∀ e ∈ mergeEdges E s t, (e.efrom == s) = false ∧ (e.eto == s) = false := by
    intro e he
    have h := mergeEdges_not_source he
    simp [beq_eq_false_iff_ne, h.1, h.2]
  set l := mergeEdges E s t with hl
  have hmo : moveOutEdges l s t = l := by
    unfold moveOutEdges
    have : (l.filter fun e => e.efrom == s && !equivOutExists l t e) = [] := by
      rw [List.filter_eq_nil_iff]
      intro e he
      simp [(hno e he).1]
    rw [this]
    simp
  have hmi : moveInEdges l s t = l := by
    unfold moveInEdges
    have : (l.filter fun e => e.eto == s && !equivInExists l t e) = [] := by
      rw [List.filter_eq_nil_iff]
      intro e he
      simp [(hno e he).2]
    rw [this]
    simp
  have hrm : removeSourceEdges l s = l := by
    unfold removeSourceEdges
    rw [List.filter_eq_self]
    intro e he
    simp [(hno e he).1, (hno e he).2]
  show removeSourceEdges (moveInEdges (moveOutEdges l s t) s t) s = l
  rw [hmo, hmi, hrm]

/-- C2 (code_bug evidence): the spec invariant "no edge with from == to
exists after any merge sequence" fails on _merge_concepts.  Merging
Concepts/A into Concepts/B while the edge A -> B exists re-homes that edge
to B -> B: the self-loop survives the final edge cleanup, which only
removes edges touching the source. -/
theorem merge_creates_self_loop_bug :
    mergeEdges [{ efrom := "Concepts/A", eto := "Concepts/B", etype := "RELATED_TO" }]
        "Concepts/A" "Concepts/B" =
      [{ efrom := "Concepts/B", eto := "Concepts/B", etype := "RELATED_TO",
         mergedFrom := some "Concepts/A" }] ∧
    ((mergeEdges [{ efrom := "Concepts/A", eto := "Concepts/B", etype := "RELATED_TO" }]
        "Concepts/A" "Concepts/B").any fun e => e.efrom == e.eto) = true := by
  constructor
  · rfl
  · rfl

/-- C3 counterexample: the claim says the merged-away source node is
preserved; _merge_concepts deletes it from the Concepts collection. -/
theorem merge_deletes_source_node_cex :
    "Concepts/A" ∈
        (GraphState.mk ["Concepts/A", "Concepts/B"] [] []).concepts ∧
    "Concepts/A" ∉
        (mergeConcepts (GraphState.mk ["Concepts/A", "Concepts/B"] [] [])
          "Concepts/A" "Concepts/B").concepts := by
  constructor
  · decide
  · decide

/-- C3 (amended): merge(source, target) re-homes the edges touching the
source, removes every remaining edge and session link of the source, and
deletes the source node itself from the Concepts collection (its own
docstring: "Delete Source Node"); no merged-away marker is kept. -/
theorem merge_removes_source_completely (st : GraphState) (s t : String) :
    (mergeConcepts st s t).concepts = st.concepts.filter (fun n => !(n == s)) ∧
    (∀ e ∈ (mergeConcepts st s t).relationships, e.efrom ≠ s ∧ e.eto ≠ s) ∧
    (∀ e ∈ (mergeConcepts st s t).conceptSessionLinks, e.lfrom ≠ s ∧ e.lto ≠ s) := by
  refine ⟨rfl, ?_, ?_⟩
  · intro e he
    exact mergeEdges_not_source he
  · intro e he
    have h := (List.mem_filter.mp he).2
    simp only [Bool.and_eq_true, Bool.not_eq_true', beq_eq_false_iff_ne] at h
    exact h

/-- Witness for merge_removes_source_completely at a concrete state. -/
theorem merge_removes_source_completely_witness :
    (mergeConcepts
        (GraphState.mk ["Concepts/A", "Concepts/B"]
          [{ efrom := "Concepts/A", eto := "Concepts/B", etype := "RELATED_TO" }] [])
        "Concepts/A" "Concepts/B").concepts =
      (["Concepts/A", "Concepts/B"].filter fun n => !(n == "Concepts/A")) ∧
    ({ efrom := "Concepts/B", eto := "Concepts/B", etype := "RELATED_TO",
       mergedFrom := some "Concepts/A" } : REdge).efrom ≠ "Concepts/A" := by
  refine ⟨(merge_removes_source_completely _ "Concepts/A" "Concepts/B").1, ?_⟩
  exact ((merge_removes_source_completely
      (GraphState.mk ["Concepts/A", "Concepts/B"]
        [{ efrom := "Concepts/A", eto := "Concepts/B", etype := "RELATED_TO" }] [])
      "Concepts/A" "Concepts/B").2.1 _ (by decide)).1

/-- C4: merge is idempotent at the edge level (a second merge(A, B) leaves
the Relationships collection exactly as the first one did), and the
duplicate guards keep the (from, to, type) triples pairwise distinct. -/
theorem merge_idempotent_no_duplicates (E : List REdge) (s t : String)
    (h : NoDupTriples E) :
    mergeEdges (mergeEdges E s t) s t = mergeEdges E s t ∧
    NoDupTriples (mergeEdges E s t) := by
  refine ⟨mergeEdges_fixpoint E s t, ?_⟩
  unfold mergeEdges removeSourceEdges
  exact (nodup_moveIn (nodup_moveOut h)).filter _

/-- Witness for merge_idempotent_no_duplicates on a concrete edge list. -/
theorem merge_idempotent_no_duplicates_witness :
    mergeEdges
        (mergeEdges [{ efrom := "Concepts/A", eto := "Concepts/X", etype := "CAUSES" }]
          "Concepts/A" "Concepts/B") "Concepts/A" "Concepts/B" =
      mergeEdges [{ efrom := "Concepts/A", eto := "Concepts/X", etype := "CAUSES" }]
        "Concepts/A" "Concepts/B" ∧
    NoDupTriples
      (mergeEdges [{ efrom := "Concepts/A", eto := "Concepts/X", etype := "CAUSES" }]
        "Concepts/A" "Concepts/B") :=
  merge_idempotent_no_duplicates
    [{ efrom := "Concepts/A", eto := "Concepts/X", etype := "CAUSES" }]
    "Concepts/A" "Concepts/B" (by simp [NoDupTriples])

/-! ### Session editing (Phase 11) and content updates -/

/-- A Sessions collection document (the fields relevant here). -/
structure SessionDoc where
  key : String
  status : String
deriving DecidableEq

/-- A document of the Seeds or UserSeeds collections.  The UserSeeds
collection stores both draft-concept nodes and extracted_relation edge
documents (source_id/target_id/relation), so one record carries the union
of their fields; absent fields default to the empty string. -/
structure SeedDoc where
  id : String := ""
  key : String := ""
  sessionId : String := ""
  typ : String := ""
  label : String := ""
  name : String := ""
  text : String := ""
  definition : String := ""
  highlight : String := ""
  sourceId : String := ""
  targetId : String := ""
  relation : String := ""
  source : String := ""
  createdAt : String := ""
deriving DecidableEq

/-- The application state touched by the editing operations. -/
structure AppState where
  sessions : List SessionDoc
  seeds : List SeedDoc
  userSeeds : List SeedDoc
  concepts : List SeedDoc
deriving DecidableEq

/-- DOCUMENT(CONCAT('Sessions/', session_id)).status: none when the
session document is missing (AQL null). -/
def getSessionStatus (st : AppState) (sessionId : String) : Option String :=
  (st.sessions.find? fun s => s.key == sessionId).map (·.status)

/-- update_session_content: rejects edits when the session is
crystallized, then updates the text (UserSeeds) or highlight (Seeds)
field of the addressed item; a missing document makes the AQL UPDATE
raise. -/
def update_session_content (st : AppState) (sessionId itemId newContent : String) :
    Except String AppState :=
  if getSessionStatus st sessionId = some "crystallized" then
    .error "Session is Crystallized and cannot be edited."
  else
    match itemId.splitOn "/" with
    | [coll, k] =>
      if coll == "UserSeeds" then
        if st.userSeeds.any fun d => d.key == k then
          .ok { st with
            userSeeds := st.userSeeds.map fun d =>
              if d.key == k then { d with text := newContent } else d }
        else .error "AQL: document not found"
      else if coll == "Seeds" then
        if st.seeds.any fun d => d.key == k then
          .ok { st with
            seeds := st.seeds.map fun d =>
              if d.key == k then { d with highlight := newContent } else d }
        else .error "AQL: document not found"
      else .error "Can only edit Seeds or UserSeeds"
    | _ => .error "Invalid ID format. Must be Collection/Key"

/-- The update payload of update_seed after its allowed-fields filter
(label, definition, type, name, text); a dict holds each key at most
once. -/
structure SeedUpdates where
  label : Option String := none
  definition : Option String := none
  typ : Option String := none
  name : Option String := none
  text : Option String := none
deriving DecidableEq

/-- Apply the valid updates to a document, mirroring the label-to-name
sync of update_seed. -/
def applySeedUpdates (d : SeedDoc) (u : SeedUpdates) : SeedDoc :=
  let u := match u.label with
    | some l => { u with name := some l }
    | none => u
  { d with
    label := u.label.getD d.label,
    definition := u.definition.getD d.definition,
    typ := u.typ.getD d.typ,
    name := u.name.getD d.name,
    text := u.text.getD d.text }

/-- String.startsWith of the source, modelled over the character list so
that it evaluates inside the kernel. -/
def strStartsWith (s pre : String) : Bool :=
  pre.data.isPrefixOf s.data

/-- update_seed: routes to Concepts when the id starts with "Concepts/",
otherwise to UserSeeds with an ownership check against the session; note
that no session-status check is performed. -/
def update_seed (st : AppState) (sessionId seedId : String) (u : SeedUpdates) :
    Except String AppState :=
  if strStartsWith seedId "Concepts/" then
    match st.concepts.find? fun d => d.id == seedId with
    | none => .error "Concept not found."
    | some _ =>
      .ok { st with
        concepts := st.concepts.map fun d =>
          if d.id == seedId then applySeedUpdates d u else d }
  else
    match st.userSeeds.find? fun d => d.id == seedId with
    | none => .error "Seed not found or does not belong to this session."
    | some node =>
      if node.sessionId == sessionId then
        .ok { st with
          userSeeds := st.userSeeds.map fun d =>
            if d.id == seedId then applySeedUpdates d u else d }
      else .error "Seed not found or does not belong to this session."

/-- Number of extracted_relation edge documents referencing the given id,
as counted by the safety check of delete_seed. -/
def extractedRelationEdgeCount (st : AppState) (theId : String) : Nat :=
  (st.userSeeds.filter fun e =>
    (e.sourceId == theId || e.targetId == theId) && e.typ == "extracted_relation").length

/-- delete_seed: ownership check, high-connectivity guard (more than 5
extracted_relation edges and force not set), then cascade-delete the
extracted_relation edges referencing the seed and delete the node. -/
def delete_seed (st : AppState) (sessionId seedId : String) (force : Bool) :
    Except String AppState :=
  match st.userSeeds.find? fun d => d.id == seedId with
  | none => .error "Seed not found."
  | some seed =>
    if seed.sessionId == sessionId then
      if extractedRelationEdgeCount st seedId > 5 ∧ force = false then
        .error "High-connectivity node. Confirm deletion with force=true."
      else
        .ok { st with
          userSeeds :=
            (st.userSeeds.filter fun d2 =>
              !((d2.sourceId == seed.id || d2.targetId == seed.id) &&
                d2.typ == "extracted_relation")).filter fun d2 => !(d2.id == seedId) }
    else .error "Seed not found."

/-- The edge document inserted by create_edge (the fresh ArangoDB key and
the runtime timestamp are not modelled). -/
def newEdgeDoc (sessionId sourceId targetId rel : String) : SeedDoc :=
  { sourceId := sourceId, targetId := targetId, relation := rel,
    typ := "extracted_relation", sessionId := sessionId, source := "manual_edit" }

/-- create_edge: verifies both endpoint nodes exist in UserSeeds and
inserts an extracted_relation edge document; no session-status check. -/
def create_edge (st : AppState) (sessionId sourceId targetId rel : String) :
    Except String AppState :=
  match st.userSeeds.find? fun d => d.id == sourceId,
      st.userSeeds.find? fun d => d.id == targetId with
  | some _, some _ =>
    .ok { st with userSeeds := st.userSeeds ++ [newEdgeDoc sessionId sourceId targetId rel] }
  | _, _ => .error "Source or Target node not found."

/-- delete_edge: ownership check against the session, then delete; no
session-status check. -/
def delete_edge (st : AppState) (sessionId edgeId : String) : Except String AppState :=
  match st.userSeeds.find? fun d => d.id == edgeId with
  | none => .error "Edge not found."
  | some edge =>
    if edge.sessionId == sessionId then
      .ok { st with userSeeds := st.userSeeds.filter fun d => !(d.id == edgeId) }
    else .error "Edge not found."

/-- C1 counterexample: on a crystallized session, update_seed silently
succeeds and mutates the draft concept instead of failing, refuting the
claim that every mutation of a crystallized session's data errors out. -/
theorem update_seed_crystallized_succeeds_cex :
    update_seed
        (AppState.mk [SessionDoc.mk "s1" "crystallized"] []
          [{ id := "UserSeeds/u1", key := "u1", sessionId := "s1",
             typ := "extracted_concept", label := "Old" }] [])
        "s1" "UserSeeds/u1" { label := some "New" } =
      .ok (AppState.mk [SessionDoc.mk "s1" "crystallized"] []
        [{ id := "UserSeeds/u1", key := "u1", sessionId := "s1",
           typ := "extracted_concept", label := "New", name := "New" }] []) ∧
    (AppState.mk [SessionDoc.mk "s1" "crystallized"] []
        [{ id := "UserSeeds/u1", key := "u1", sessionId := "s1",
           typ := "extracted_concept", label := "New", name := "New" }] []) ≠
      (AppState.mk [SessionDoc.mk "s1" "crystallized"] []
        [{ id := "UserSeeds/u1", key := "u1", sessionId := "s1",
           typ := "extracted_concept", label := "Old" }] []) := by
  constructor
  · rfl
  · decide

/-- C1 (amended): only update_session_content guards against a
crystallized session; update_seed and the edge-editing operations perform
their mutation regardless of the session's status, checking only
existence and ownership. -/
theorem crystallized_guard_only_update_session_content :
    (∀ (st : AppState) (sid itemId c : String),
      getSessionStatus st sid = some "crystallized" →
      update_session_content st sid itemId c =
        .error "Session is Crystallized and cannot be edited.") ∧
    (∀ (st : AppState) (sid seedId : String) (u : SeedUpdates) (node : SeedDoc),
      strStartsWith seedId "Concepts/" = false →
      (st.userSeeds.find? fun d => d.id == seedId) = some node →
      node.sessionId = sid →
      update_seed st sid seedId u =
        .ok { st with
          userSeeds := st.userSeeds.map fun d =>
            if d.id == seedId then applySeedUpdates d u else d }) ∧
    (∀ (st : AppState) (sid srcId tgtId rel : String) (asrc atgt : SeedDoc),
      (st.userSeeds.find? fun d => d.id == srcId) = some asrc →
      (st.userSeeds.find? fun d => d.id == tgtId) = some atgt →
      create_edge st sid srcId tgtId rel =
        .ok { st with userSeeds := st.userSeeds ++ [newEdgeDoc sid srcId tgtId rel] }) := by
  refine ⟨?_, ?_, ?_⟩
  · intro st sid itemId c h
    unfold update_session_content
    rw [if_pos h]
  · intro st sid seedId u node hpre hfind hown
    unfold update_seed
    rw [hpre]
    simp only [Bool.false_eq_true, if_false, hfind, hown, beq_self_eq_true, if_true]
  · intro st sid srcId tgtId rel asrc atgt hsrc htgt
    unfold create_edge
    rw [hsrc, htgt]

/-- Witness for crystallized_guard_only_update_session_content at a
concrete crystallized-session state. -/
theorem crystallized_guard_witness :
    update_session_content
        (AppState.mk [SessionDoc.mk "s1" "crystallized"]
          [{ id := "Seeds/x1", key := "x1", sessionId := "s1" }]
          [{ id := "UserSeeds/u1", key := "u1", sessionId := "s1" },
           { id := "UserSeeds/u2", key := "u2", sessionId := "s1" }] [])
        "s1" "Seeds/x1" "edited" =
      .error "Session is Crystallized and cannot be edited." ∧
    (update_seed
        (AppState.mk [SessionDoc.mk "s1" "crystallized"]
          [{ id := "Seeds/x1", key := "x1", sessionId := "s1" }]
          [{ id := "UserSeeds/u1", key := "u1", sessionId := "s1" },
           { id := "UserSeeds/u2", key := "u2", sessionId := "s1" }] [])
        "s1" "UserSeeds/u1" { label := some "New" }).isOk = true ∧
    (create_edge
        (AppState.mk [SessionDoc.mk "s1" "crystallized"]
          [{ id := "Seeds/x1", key := "x1", sessionId := "s1" }]
          [{ id := "UserSeeds/u1", key := "u1", sessionId := "s1" },
           { id := "UserSeeds/u2", key := "u2", sessionId := "s1" }] [])
        "s1" "UserSeeds/u1" "UserSeeds/u2" "supports").isOk = true := by
  refine ⟨crystallized_guard_only_update_session_content.1 _ "s1" "Seeds/x1" "edited"
      (by decide), ?_, ?_⟩
  · rw [crystallized_guard_only_update_session_content.2.1 _ "s1" "UserSeeds/u1"
      { label := some "New" } { id := "UserSeeds/u1", key := "u1", sessionId := "s1" }
      (by decide) (by decide) rfl]
    rfl
  · rw [crystallized_guard_only_update_session_content.2.2 _ "s1" "UserSeeds/u1"
      "UserSeeds/u2" "supports" { id := "UserSeeds/u1", key := "u1", sessionId := "s1" }
      { id := "UserSeeds/u2", key := "u2", sessionId := "s1" } (by decide) (by decide)]
    rfl

/-- C10: for a seed of the session, delete_seed with force=false errors
out (mutating nothing) when the seed participates in more than 5
extracted_relation edges, and otherwise deletes the node after cascading
deletion of every extracted_relation edge referencing it. -/
theorem delete_seed_guard_and_cascade (st : AppState) (sid seedId : String)
    (seed : SeedDoc)
    (hfind : (st.userSeeds.find? fun d => d.id == seedId) = some seed)
    (hown : seed.sessionId = sid) :
    (extractedRelationEdgeCount st seedId > 5 →
      delete_seed st sid seedId false =
        .error "High-connectivity node. Confirm deletion with force=true.") ∧
    (extractedRelationEdgeCount st seedId ≤ 5 →
      delete_seed st sid seedId false =
        .ok { st with
          userSeeds :=
            (st.userSeeds.filter fun d2 =>
              !((d2.sourceId == seed.id || d2.targetId == seed.id) &&
                d2.typ == "extracted_relation")).filter fun d2 => !(d2.id == seedId) }) := by
  constructor
  · intro hcount
    unfold delete_seed
    rw [hfind]
    simp only [hown, beq_self_eq_true, if_true]
    rw [if_pos ⟨hcount, by trivial⟩]
  · intro hcount
    unfold delete_seed
    rw [hfind]
    simp only [hown, beq_self_eq_true, if_true]
    rw [if_neg fun hc => absurd hc.1 (by omega)]

/-- Witness for delete_seed_guard_and_cascade: both branches exercised on
concrete states. -/
theorem delete_seed_guard_witness :
    delete_seed
        (AppState.mk [] []
          [{ id := "UserSeeds/u1", key := "u1", sessionId := "s1", typ := "thought" },
           { id := "UserSeeds/e1", sessionId := "s1", typ := "extracted_relation",
             sourceId := "UserSeeds/u1", targetId := "UserSeeds/u2" }] [])
        "s1" "UserSeeds/u1" false =
      .ok (AppState.mk [] []
        [] []) := by
  have h := (delete_seed_guard_and_cascade
      (AppState.mk [] []
        [{ id := "UserSeeds/u1", key := "u1", sessionId := "s1", typ := "thought" },
         { id := "UserSeeds/e1", sessionId := "s1", typ := "extracted_relation",
           sourceId := "UserSeeds/u1", targetId := "UserSeeds/u2" }] [])
      "s1" "UserSeeds/u1"
      { id := "UserSeeds/u1", key := "u1", sessionId := "s1", typ := "thought" }
      (by decide) rfl).2 (by decide)
  rw [h]
  rfl

/-! ### Entity-resolution pair classification (consolidate_session) -/

/-- Outcome of the per-pair hybrid judge. -/
inductive PairVerdict
  | merge
  | noRelation
deriving DecidableEq

/-- The tiered per-pair decision of consolidate_session for a (session
concept, global candidate) pair: vector score above 0.98 auto-merges,
fuzzy label score above 90 auto-merges, vector score above 0.85 defers to
the LLM judge; the Bool result records whether the LLM judge was
invoked.  Candidate pairs reach this logic only with vector score above
0.85, but the chain is total. -/
def classify_pair (vectorScore fuzzyScore : ℚ) (llmSaysSame : Bool) :
    PairVerdict × Bool :=
  if vectorScore > 98 / 100 then (.merge, false)
  else if fuzzyScore > 90 then (.merge, false)
  else if vectorScore > 85 / 100 then
    (if llmSaysSame then (.merge, true) else (.noRelation, true))
  else (.noRelation, false)

/-- C6: a pair with vector similarity above 0.98 is auto-merged by the
tier-1 shortcut, and the LLM judge is not called for it. -/
theorem tier1_vector_shortcut_merge (vectorScore fuzzyScore : ℚ) (llmSaysSame : Bool)
    (h : vectorScore > 98 / 100) :
    classify_pair vectorScore fuzzyScore llmSaysSame = (.merge, false) := by
  unfold classify_pair
  rw [if_pos h]

/-- Witness for tier1_vector_shortcut_merge at similarity 0.99. -/
theorem tier1_vector_shortcut_merge_witness :
    classify_pair (99 / 100) 0 false = (.merge, false) :=
  tier1_vector_shortcut_merge (99 / 100) 0 false (by norm_num)

/-! ### Graph expansion scoring (expand_graph) -/

/-- Edge-type weight table of the expand_graph AQL query. -/
def edge_weight (etype : String) : ℚ :=
  if etype ∈ (["CAUSES", "REQUIRES", "ENABLES", "HAS_PART", "PREREQUISITE"] : List String)
    then 1
  else if etype ∈ (["RELATED_TO", "MENTIONS"] : List String) then 6 / 10
  else if etype = "CONTRADICTS" then 8 / 10
  else 1 / 2

/-- Hop decay of expand_graph: a single-hop path is undecayed, every
other hop distance is halved. -/
def hop_decay (hopDistance : Nat) : ℚ :=
  if hopDistance = 1 then 1 else 1 / 2

/-- Per-path weight of a reachable node in expand_graph. -/
def final_weight (etype : String) (hopDistance : Nat) : ℚ :=
  edge_weight etype * hop_decay hopDistance

/-- C8 counterexample: the claim puts contradiction edges in the
1.0-weight tier, but expand_graph weights CONTRADICTS at 0.8. -/
theorem contradicts_weight_cex :
    edge_weight "CONTRADICTS" = 8 / 10 ∧ (8 / 10 : ℚ) ≠ 1 := by
  constructor
  · rfl
  · norm_num

/-- C8 (amended): the expand_graph weight schedule is 1.0 for
CAUSES/REQUIRES/ENABLES/HAS_PART/PREREQUISITE, 0.6 for
RELATED_TO/MENTIONS, 0.8 for CONTRADICTS and 0.5 for every other edge
type; a single-hop result is undecayed and any other hop distance is
decayed by 0.5, the score of a path being the product of both factors. -/
theorem edge_weight_schedule :
    edge_weight "CAUSES" = 1 ∧ edge_weight "REQUIRES" = 1 ∧
    edge_weight "ENABLES" = 1 ∧ edge_weight "HAS_PART" = 1 ∧
    edge_weight "PREREQUISITE" = 1 ∧
    edge_weight "RELATED_TO" = 6 / 10 ∧ edge_weight "MENTIONS" = 6 / 10 ∧
    edge_weight "CONTRADICTS" = 8 / 10 ∧
    (∀ t : String,
      t ∉ (["CAUSES", "REQUIRES", "ENABLES", "HAS_PART", "PREREQUISITE",
        "RELATED_TO", "MENTIONS", "CONTRADICTS"] : List String) →
      edge_weight t = 1 / 2) ∧
    hop_decay 1 = 1 ∧ (∀ h : Nat, h ≠ 1 → hop_decay h = 1 / 2) ∧
    (∀ (t : String) (h : Nat), final_weight t h = edge_weight t * hop_decay h) := by
  refine ⟨rfl, rfl, rfl, rfl, rfl, rfl, rfl, rfl, ?_, rfl, ?_, fun t h => rfl⟩
  · intro t ht
    simp only [List.mem_cons, List.mem_singleton, not_or] at ht
    obtain ⟨h1, h2, h3, h4, h5, h6, h7, h8, -⟩ := ht
    unfold edge_weight
    rw [if_neg (by simp [h1, h2, h3, h4, h5]), if_neg (by simp [h6, h7]), if_neg h8]
  · intro h hh
    unfold hop_decay
    rw [if_neg hh]

/-- Witness for edge_weight_schedule: an unlisted edge type gets weight
0.5 and a two-hop path is decayed by 0.5. -/
theorem edge_weight_schedule_witness :
    edge_weight "CRYSTALLIZED_AS" = 1 / 2 ∧ hop_decay 2 = 1 / 2 := by
  obtain ⟨-, -, -, -, -, -, -, -, hother, -, hdecay, -⟩ := edge_weight_schedule
  exact ⟨hother "CRYSTALLIZED_AS" (by decide), hdecay 2 (by decide)⟩

/-! ### Hybrid retrieval pipeline (hybrid_retrieve and helpers)

The Graph Store queries issued by the candidate-generation operations are
abstracted as their outcome: ok with the scored result list of the AQL
query, or error when the store raises.  Result items carry the fields the
pipeline reads: score, source tag, priority (default 0.5 as in the
sort-key getter) and the optional concept document id used to seed graph
expansion. -/

/-- A retrieval result item. -/
structure RItem where
  score : ℚ
  source : String
  priority : ℚ := 1 / 2
  docId : Option String := none
deriving DecidableEq

/-- The PRIORITY_WEIGHTS table of GraphRAGService. -/
def PRIORITY_WEIGHTS (k : String) : ℚ :=
  if k = "session_seeds" then 1
  else if k = "concept_vector" then 9 / 10
  else if k = "graph_expansion" then 7 / 10
  else if k = "global_seeds" then 1 / 2
  else 0

/-- SPARSE_THRESHOLD: fewer gathered candidates than this triggers the
global fallback search. -/
def SPARSE_THRESHOLD : Nat := 2

/-- RERANK_FINAL_K of the service configuration. -/
def RERANK_FINAL_K : Nat := 10

/-- RERANK_ENABLED of the service configuration. -/
def RERANK_ENABLED : Bool := true

/-- search_concepts: the AQL vector query wrapped in try/except; a store
failure yields the empty list instead of raising. -/
def search_concepts (queryRes : Except Unit (List RItem)) : List RItem :=
  match queryRes with
  | .ok results => results
  | .error _ => []

/-- expand_graph: returns [] for an empty id list, otherwise the traversal
query result; a store failure yields the empty list instead of raising. -/
def expand_graph (conceptIds : List String) (queryRes : Except Unit (List RItem)) :
    List RItem :=
  if conceptIds.isEmpty then []
  else
    match queryRes with
    | .ok results => results
    | .error _ => []

/-- search_global_seeds: the fallback seed query wrapped in try/except; a
store failure yields the empty list instead of raising. -/
def search_global_seeds (queryRes : Except Unit (List RItem)) : List RItem :=
  match queryRes with
  | .ok results => results
  | .error _ => []

/-- The priority-weighted sort key of hybrid_retrieve. -/
def sort_key (item : RItem) : ℚ :=
  item.score * item.priority

/-- Descending comparison on a rational-valued key, the order produced by
a Python sort with reverse=True. -/
def keyRelDesc (key : RItem → ℚ) : RItem → RItem → Prop :=
  fun a b => key b ≤ key a

instance (key : RItem → ℚ) : DecidableRel (keyRelDesc key) :=
  fun a b => inferInstanceAs (Decidable (key b ≤ key a))

instance (key : RItem → ℚ) : IsTotal RItem (keyRelDesc key) :=
  ⟨fun a b => le_total (key b) (key a)⟩

instance (key : RItem → ℚ) : IsTrans RItem (keyRelDesc key) :=
  ⟨fun _ _ _ h1 h2 => le_trans h2 h1⟩

/-- Stable descending sort by a key, modelling Python's sorted with
reverse=True. -/
def sortDescBy (key : RItem → ℚ) (l : List RItem) : List RItem :=
  List.insertionSort (keyRelDesc key) l

/-- Non-strict descending order on the hybrid_retrieve sort key: the
relation the spec requires between adjacent final results. -/
def sortKeyGE (a b : RItem) : Prop :=
  sort_key b ≤ sort_key a

instance : DecidableRel sortKeyGE :=
  fun a b => inferInstanceAs (Decidable (sort_key b ≤ sort_key a))

/-- rerank_results: returns the input truncated to top_k when the result
list is empty, reranking is disabled or the cross-encoder is unavailable
or fails (its try/except), and otherwise re-sorts by the cross-encoder
score before truncating. -/
def rerank_results (reranker : Option (RItem → ℚ)) (results : List RItem)
    (topK : Nat) : List RItem :=
  if results.isEmpty || !RERANK_ENABLED then results.take topK
  else
    match reranker with
    | none => results.take topK
    | some predict => (sortDescBy predict results).take topK

/-- Scores of the primary (session_concept / global_concept) items among
the concept results, as filtered by the territory computation. -/
def primaryConceptScores (conceptResults : List RItem) : List ℚ :=
  (conceptResults.filter fun r =>
    r.source == "session_concept" || r.source == "global_concept").map (·.score)

/-- max(primary_concept_scores) if primary_concept_scores else 0. -/
def maxPrimaryScore (conceptResults : List RItem) : ℚ :=
  match primaryConceptScores conceptResults with
  | [] => 0
  | s :: rest => rest.foldl max s

/-- STRONG_MATCH_THRESHOLD of the territory computation. -/
def STRONG_MATCH_THRESHOLD : ℚ := 3 / 4

/-- WEAK_MATCH_THRESHOLD of the territory computation. -/
def WEAK_MATCH_THRESHOLD : ℚ := 1 / 2

/-- Territory classification of hybrid_retrieve step 5.5, computed from
the concept-search results only. -/
def territoryOf (conceptResults : List RItem) : String :=
  if maxPrimaryScore conceptResults ≥ STRONG_MATCH_THRESHOLD then "known"
  else if maxPrimaryScore conceptResults ≥ WEAK_MATCH_THRESHOLD then "uncertain"
  else "new"

/-- The structured answer of hybrid_retrieve (the fields the verified
claims are about). -/
structure RetrieveOutput where
  results : List RItem
  territory : String
  isNewTerritory : Bool
deriving DecidableEq

/-- Steps 2a to 6 of hybrid_retrieve: the pure tail of the pipeline after
the session-seed step.  Concept results are tagged with the
concept_vector priority, graph expansion runs when concept results (with
concept document ids) exist, the global seed fallback runs when fewer
than SPARSE_THRESHOLD candidates were gathered, then candidates are
priority-sorted, optionally reranked when more than 3 results are
present, and truncated to the top 10. -/
def retrieve_tail (sessionSeeds : List RItem)
    (conceptQueryRes : Except Unit (List RItem))
    (expandQueryRes : Except Unit (List RItem))
    (globalQueryRes : Except Unit (List RItem))
    (reranker : Option (RItem → ℚ)) : RetrieveOutput :=
  let conceptResults :=
    (search_concepts conceptQueryRes).map fun it =>
      { it with priority := PRIORITY_WEIGHTS "concept_vector" }
  let conceptIds := conceptResults.filterMap (·.docId)
  let expanded :=
    if !conceptResults.isEmpty && !conceptIds.isEmpty then
      (expand_graph conceptIds expandQueryRes).map fun it =>
        { it with priority := PRIORITY_WEIGHTS "graph_expansion" }
    else []
  let totalSoFar := sessionSeeds.length + conceptResults.length + expanded.length
  let globalSeeds :=
    if totalSoFar < SPARSE_THRESHOLD then
      (search_global_seeds globalQueryRes).map fun it =>
        { it with priority := PRIORITY_WEIGHTS "global_seeds" }
    else []
  let allResults := sessionSeeds ++ conceptResults ++ expanded ++ globalSeeds
  let territory := territoryOf conceptResults
  let sorted := sortDescBy sort_key allResults
  let finalResults :=
    if RERANK_ENABLED = true ∧ sorted.length > 3 then
      rerank_results reranker sorted RERANK_FINAL_K
    else sorted
  { results := finalResults.take 10, territory := territory,
    isNewTerritory := territory == "new" }

/-- Step 1 post-processing of hybrid_retrieve: tag each session-seed item
with its source and priority. -/
def tagSessionSeeds (xs : List RItem) : List RItem :=
  xs.map fun it =>
    { it with source := "session_seeds", priority := PRIORITY_WEIGHTS "session_seeds" }

/-- hybrid_retrieve: the orchestrator pipeline.  Step 1 calls
hybrid_search, which has no try/except, so a store failure there
propagates; the remaining steps are retrieve_tail. -/
def hybrid_retrieve (sessionId : Option String)
    (sessionSeedsRes : Except Unit (List RItem))
    (conceptQueryRes : Except Unit (List RItem))
    (expandQueryRes : Except Unit (List RItem))
    (globalQueryRes : Except Unit (List RItem))
    (reranker : Option (RItem → ℚ)) : Except Unit RetrieveOutput := do
  let sessionSeeds ←
    match sessionId with
    | some _ => do
      let xs ← sessionSeedsRes
      pure (tagSessionSeeds xs)
    | none => pure ([] : List RItem)
  pure (retrieve_tail sessionSeeds conceptQueryRes expandQueryRes globalQueryRes reranker)

/-- C5: the territory classification is exactly the threshold scheme of
the spec over the maximum primary concept similarity: known iff the
maximum is at least 0.75, uncertain iff it lies in [0.5, 0.75), new iff
it is below 0.5 or there are no primary concept results. -/
theorem territory_classification_spec (rs : List RItem) :
    (territoryOf rs = "known" ↔ STRONG_MATCH_THRESHOLD ≤ maxPrimaryScore rs) ∧
    (territoryOf rs = "uncertain" ↔
      WEAK_MATCH_THRESHOLD ≤ maxPrimaryScore rs ∧
        maxPrimaryScore rs < STRONG_MATCH_THRESHOLD) ∧
    (territoryOf rs = "new" ↔
      (maxPrimaryScore rs < WEAK_MATCH_THRESHOLD ∨ primaryConceptScores rs = [])) := by
  have hempty : primaryConceptScores rs = [] → maxPrimaryScore rs = 0 := by
    intro h
    unfold maxPrimaryScore
    rw [h]
  unfold territoryOf
  split_ifs with h1 h2
  · refine ⟨⟨fun _ => h1, fun _ => rfl⟩,
      ⟨fun hk => absurd hk (by decide), fun hc => absurd h1 (not_le.mpr hc.2)⟩,
      ⟨fun hk => absurd hk (by decide), fun hc => ?_⟩⟩
    rcases hc with hlt | hnil
    · exact absurd h1 (not_le.mpr (hlt.trans_le (by norm_num
        [WEAK_MATCH_THRESHOLD, STRONG_MATCH_THRESHOLD])))
    · rw [hempty hnil] at h1
      exact absurd h1 (by norm_num [STRONG_MATCH_THRESHOLD])
  · refine ⟨⟨fun hk => absurd hk (by decide), fun hc => absurd hc h1⟩,
      ⟨fun _ => ⟨h2, not_le.mp h1⟩, fun _ => rfl⟩,
      ⟨fun hk => absurd hk (by decide), fun hc => ?_⟩⟩
    rcases hc with hlt | hnil
    · exact absurd h2 (not_le.mpr hlt)
    · rw [hempty hnil] at h2
      exact absurd h2 (by norm_num [WEAK_MATCH_THRESHOLD])
  · exact ⟨⟨fun hk => absurd hk (by decide), fun hc => absurd hc h1⟩,
      ⟨fun hk => absurd hk (by decide), fun hc => absurd hc.1 h2⟩,
      ⟨fun _ => Or.inl (not_le.mp h2), fun _ => rfl⟩⟩

/-- Witness for territory_classification_spec at a concrete score list. -/
theorem territory_classification_witness :
    territoryOf [{ score := 8 / 10, source := "global_concept" }] = "known" :=
  (territory_classification_spec [{ score := 8 / 10, source := "global_concept" }]).1.mpr
    (by norm_num [maxPrimaryScore, primaryConceptScores, STRONG_MATCH_THRESHOLD])

/-- C7 counterexample: a Graph Store failure inside the session-seed
sub-step (hybrid_search, which has no try/except) propagates out of
hybrid_retrieve, so the pipeline as a whole can raise for a failing
sub-step. -/
theorem session_seed_failure_raises_cex :
    hybrid_retrieve (some "s1") (.error ()) (.ok []) (.ok []) (.ok []) none =
      .error () := rfl

/-- C7 (amended): the three candidate-generation operations (concept
vector search, graph expansion, global seed fallback) each return the
empty list on Graph Store failure instead of raising, and hybrid_retrieve
never raises as long as the unguarded session-seed step either is skipped
(no session id) or succeeds. -/
theorem candidate_ops_degrade_gracefully :
    (∀ e : Unit, search_concepts (.error e) = []) ∧
    (∀ (ids : List String) (e : Unit), expand_graph ids (.error e) = []) ∧
    (∀ e : Unit, search_global_seeds (.error e) = []) ∧
    (∀ (sid : Option String) (xs : List RItem)
        (cq eg gq : Except Unit (List RItem)) (rr : Option (RItem → ℚ)),
      (hybrid_retrieve sid (.ok xs) cq eg gq rr).isOk = true) ∧
    (∀ (ss cq eg gq : Except Unit (List RItem)) (rr : Option (RItem → ℚ)),
      (hybrid_retrieve none ss cq eg gq rr).isOk = true) := by
  refine ⟨fun e => rfl, fun ids e => ?_, fun e => rfl, fun sid xs cq eg gq rr => ?_,
    fun ss cq eg gq rr => rfl⟩
  · unfold expand_graph
    split
    · rfl
    · rfl
  · cases sid with
    | none => rfl
    | some s => rfl


/-- The insertion sort by a descending key yields a list that is pairwise
ordered by that key. -/
lemma sortDescBy_pairwise (key : RItem → ℚ) (l : List RItem) :
    List.Pairwise (keyRelDesc key) (sortDescBy key l) :=
  List.sorted_insertionSort (keyRelDesc key) l

/-- Any sublist of the priority-sorted candidate list is adjacently
ordered by the hybrid_retrieve sort key. -/
lemma chain'_of_sublist_sortDescBy {l' l : List RItem}
    (h : l'.Sublist (sortDescBy sort_key l)) : List.Chain' sortKeyGE l' :=
  ((sortDescBy_pairwise sort_key l).sublist h).chain'

/-- With no reranker available, rerank_results only truncates. -/
lemma rerank_results_none (results : List RItem) (topK : Nat) :
    rerank_results none results topK = results.take topK := by
  unfold rerank_results
  split
  · rfl
  · rfl

/-- The truncated final list of the pipeline is adjacently ordered by the
sort key when no reranker re-sorts it. -/
lemma chain'_final (L : List RItem) :
    List.Chain' sortKeyGE
      ((if RERANK_ENABLED = true ∧ (sortDescBy sort_key L).length > 3 then
          rerank_results none (sortDescBy sort_key L) RERANK_FINAL_K
        else sortDescBy sort_key L).take 10) := by
  split_ifs
  · rw [rerank_results_none]
    exact chain'_of_sublist_sortDescBy
      ((List.take_sublist _ _).trans (List.take_sublist _ _))
  · exact chain'_of_sublist_sortDescBy (List.take_sublist _ _)

/-- With no reranker, the output of the pure pipeline tail is adjacently
ordered by score times priority. -/
lemma retrieve_tail_chain' (sessionSeeds : List RItem)
    (cq eg gq : Except Unit (List RItem)) :
    List.Chain' sortKeyGE (retrieve_tail sessionSeeds cq eg gq none).results := by
  unfold retrieve_tail
  dsimp only
  exact chain'_final _

/-- C9 (amended): whenever the cross-encoder rerank step does not apply
(here: no reranker is available, which also covers a failing reranker),
every adjacent pair of the final hybrid_retrieve results satisfies
score_i * priority_i >= score_(i+1) * priority_(i+1); when the reranker
does apply, the final order is by rerank score instead. -/
theorem pre_rerank_priority_order (sid : Option String)
    (ssr cq eg gq : Except Unit (List RItem)) (out : RetrieveOutput)
    (h : hybrid_retrieve sid ssr cq eg gq none = .ok out) :
    List.Chain' sortKeyGE out.results := by
  cases sid with
  | none =>
    have h' : Except.ok (retrieve_tail [] cq eg gq none) = Except.ok out := h
    obtain rfl : retrieve_tail [] cq eg gq none = out := Except.ok.inj h'
    exact retrieve_tail_chain' [] cq eg gq
  | some s =>
    cases ssr with
    | error e => exact Except.noConfusion (show Except.error e = Except.ok out from h)
    | ok xs =>
      have h' :
          Except.ok (retrieve_tail (tagSessionSeeds xs) cq eg gq none) =
            Except.ok out := h
      obtain rfl : retrieve_tail (tagSessionSeeds xs) cq eg gq none = out :=
        Except.ok.inj h'
      exact retrieve_tail_chain' _ cq eg gq

/-- Witness for pre_rerank_priority_order on a concrete retrieval. -/
theorem pre_rerank_priority_order_witness :
    List.Chain' sortKeyGE
      (retrieve_tail [] (.ok [{ score := 9 / 10, source := "global_concept" }])
        (.ok []) (.ok []) none).results :=
  pre_rerank_priority_order none (.ok [])
    (.ok [{ score := 9 / 10, source := "global_concept" }]) (.ok []) (.ok [])
    (retrieve_tail [] (.ok [{ score := 9 / 10, source := "global_concept" }])
      (.ok []) (.ok []) none) rfl

/-- PRIORITY_WEIGHTS at its four keys. -/
lemma pw_session_seeds : PRIORITY_WEIGHTS "session_seeds" = 1 := rfl

/-- PRIORITY_WEIGHTS at concept_vector. -/
lemma pw_concept_vector : PRIORITY_WEIGHTS "concept_vector" = 9 / 10 := rfl

/-- PRIORITY_WEIGHTS at graph_expansion. -/
lemma pw_graph_expansion : PRIORITY_WEIGHTS "graph_expansion" = 7 / 10 := rfl

/-- PRIORITY_WEIGHTS at global_seeds. -/
lemma pw_global_seeds : PRIORITY_WEIGHTS "global_seeds" = 1 / 2 := rfl

/-- The cross-encoder relevance scores of the counterexample run: the
reranker prefers exactly the items the priority-weighted order ranks
last. -/
def cexRerankScore (r : RItem) : ℚ :=
  1 - r.score

/-- C9 counterexample: with more than 3 candidates and an available
reranker, hybrid_retrieve re-sorts its final results by the cross-encoder
score, and the returned list violates the claimed
score_i * priority_i >= score_(i+1) * priority_(i+1) ordering already at
its first adjacent pair. -/
theorem rerank_breaks_priority_order_cex :
    hybrid_retrieve none (.ok [])
        (.ok [{ score := 9 / 10, source := "global_concept" },
          { score := 8 / 10, source := "global_concept" },
          { score := 7 / 10, source := "global_concept" },
          { score := 6 / 10, source := "global_concept" }])
        (.ok []) (.ok []) (some cexRerankScore) =
      .ok (RetrieveOutput.mk
        [{ score := 6 / 10, source := "global_concept", priority := 9 / 10 },
         { score := 7 / 10, source := "global_concept", priority := 9 / 10 },
         { score := 8 / 10, source := "global_concept", priority := 9 / 10 },
         { score := 9 / 10, source := "global_concept", priority := 9 / 10 }]
        "known" false) ∧
    ¬ List.Chain' sortKeyGE
      [{ score := 6 / 10, source := "global_concept", priority := 9 / 10 },
       { score := 7 / 10, source := "global_concept", priority := 9 / 10 },
       { score := 8 / 10, source := "global_concept", priority := 9 / 10 },
       { score := 9 / 10, source := "global_concept", priority := 9 / 10 }] := by
  constructor
  · show Except.ok
        (retrieve_tail []
          (.ok [{ score := 9 / 10, source := "global_concept" },
            { score := 8 / 10, source := "global_concept" },
            { score := 7 / 10, source := "global_concept" },
            { score := 6 / 10, source := "global_concept" }])
          (.ok []) (.ok []) (some cexRerankScore)) = _
    rw [Except.ok.injEq]
    norm_num [retrieve_tail, search_concepts, expand_graph, search_global_seeds,
      sortDescBy, keyRelDesc, sort_key, cexRerankScore, rerank_results, territoryOf,
      maxPrimaryScore, primaryConceptScores, pw_concept_vector, pw_global_seeds,
      SPARSE_THRESHOLD, RERANK_ENABLED, RERANK_FINAL_K, STRONG_MATCH_THRESHOLD,
      WEAK_MATCH_THRESHOLD]
    decide
  · intro hchain
    have h1 := (List.chain'_cons.mp hchain).1
    unfold sortKeyGE sort_key at h1
    norm_num at h1
